import Mathlib

/-!
Shallow embedding of the mapped serialization core (frozen_column.cc):
FrozenMemoryRegion, MutableMemoryRegion, MemorySerializer, FileSerializer
(arenas over a growing file mapping), the structured serializer entry
emission, the Zip reconstituter tree lookups, and the reconstitute
stream handler.  Pointers are modelled as natural numbers, machine
system calls (ftruncate, mmap, mremap, posix_memalign) as explicit
oracles/parameters; failure paths (exceptions, ExcAssert) are modelled
with `Except String`.
-/

namespace MldbSerializer

/-- Page size from mldb/arch/vm.h (x86-64 Linux). -/
def page_size : Nat := 4096

/-- sizeof(void *) on the target platform. -/
def ptrSize : Nat := 8

/-! ## FrozenMemoryRegion and MutableMemoryRegion -/

/-- FrozenMemoryRegion: immutable (handle, data pointer, length) triple.
The handle is the opaque shared-ownership token (`std::shared_ptr<void>`),
modelled as `Option Nat` where `none` is the null handle. -/
structure FrozenMemoryRegion where
  handle : Option Nat
  dataPtr : Nat
  length : Nat
deriving DecidableEq, Repr

instance : Inhabited FrozenMemoryRegion := ⟨⟨none, 0, 0⟩⟩

/-- FrozenMemoryRegion::range(start, end): checked sub-slice sharing the
handle.  The two ExcAssert checks become `Except.error` on violation. -/
def FrozenMemoryRegion.range (r : FrozenMemoryRegion) (start stop : Nat) :
    Except String FrozenMemoryRegion :=
  if start ≤ stop then
    if stop ≤ r.length then
      .ok ⟨r.handle, r.dataPtr + start, stop - start⟩
    else .error "ExcAssertLessEqual end length"
  else .error "ExcAssertGreaterEqual end start"

/-- The byte sequence a region denotes, given the contents `mem` of the
address space. -/
def FrozenMemoryRegion.bytes (r : FrozenMemoryRegion) (mem : Nat → Nat) :
    List Nat :=
  (List.range r.length).map fun i => mem (r.dataPtr + i)

/-- MutableMemoryRegion: (handle, data pointer, length); the owner back
pointer is implicit (freeze is modelled per concrete serializer). -/
structure MutableMemoryRegion where
  handle : Option Nat
  dataPtr : Nat
  length : Nat
deriving DecidableEq, Repr

/-! ## MemorySerializer -/

/-- MemorySerializer::allocateWritable: rounds the alignment up to
sizeof(void *) and calls posix_memalign, modelled by the allocator
oracle `memalign : alignment → bytes → address`.  The returned handle
always owns the allocation (`shared_ptr(mem, free)`) — there is no
zero-byte special case. -/
def MemorySerializer.allocateWritable (bytesRequired alignment : Nat)
    (memalign : Nat → Nat → Nat) : MutableMemoryRegion :=
  let alignment := if alignment < ptrSize then ptrSize else alignment
  let mem := memalign alignment bytesRequired
  ⟨some mem, mem, bytesRequired⟩

/-- MemorySerializer::freeze: wraps the mutable region's triple as a
FrozenMemoryRegion. -/
def MemorySerializer.freeze (r : MutableMemoryRegion) : FrozenMemoryRegion :=
  ⟨r.handle, r.dataPtr, r.length⟩

/-! ## FileSerializer: arenas over a growing file mapping -/

/-- FileSerializer::Itl::Arena: (base address, start offset in file,
length, current bump offset). -/
structure Arena where
  addr : Nat
  startOffset : Nat
  length : Nat
  currentOffset : Nat
deriving DecidableEq, Repr

/-- Arena::allocate(bytes, alignment): bump allocation with alignment
padding; returns the pointer and the updated arena, or `none` when the
remaining space does not suffice. -/
def Arena.allocate (a : Arena) (bytes alignment : Nat) :
    Option (Nat × Arena) :=
  let extraBytes :=
    if a.currentOffset % alignment > 0
    then alignment - a.currentOffset % alignment
    else 0
  if a.currentOffset + bytes + extraBytes > a.length then none
  else some (a.addr + extraBytes + a.currentOffset,
             { a with currentOffset := a.currentOffset + extraBytes + bytes })

/-- Arena::freeSpace. -/
def Arena.freeSpace (a : Arena) : Nat := a.length - a.currentOffset

/-- `arenas.back()` of the C++ vector. -/
def lastElem? {α : Type} : List α → Option α
  | [] => none
  | [a] => some a
  | _ :: b :: rest => lastElem? (b :: rest)

/-- FileSerializer::Itl state: the on-disk file length (as set by
ftruncate), `currentlyAllocated`, and the arena vector. -/
structure FSState where
  fileLength : Nat
  currentlyAllocated : Nat
  arenas : List Arena
deriving DecidableEq, Repr

/-- Itl::verifyLength: fstat the file and ExcAssertEqual its size
against `currentlyAllocated`. -/
def verifyLength (s : FSState) : Except String Unit :=
  if s.fileLength = s.currentlyAllocated then .ok ()
  else .error "ExcAssertEqual st_size currentlyAllocated"

/-- The length the source computes for a fresh arena: pages of the
request with a floor of 1024 pages, then a geometric-growth floor of
currentlyAllocated / 8 (in pages), times the page size. -/
def newArenaLength (s : FSState) (bytesRequired : Nat) : Nat :=
  (max (max ((bytesRequired + page_size - 1) / page_size) 1024)
       ((s.currentlyAllocated + page_size - 1) / page_size / 8)) * page_size

/-- Itl::createNewArena: verifyLength, ftruncate the file to
currentlyAllocated + newLength, mmap a fresh arena there (address given
by the `mmapAddr` oracle), append it, bump currentlyAllocated and
verifyLength again.  ftruncate/mmap themselves are modelled as
succeeding. -/
def createNewArena (s : FSState) (bytesRequired mmapAddr : Nat) :
    Except String FSState :=
  match verifyLength s with
  | .error e => .error e
  | .ok () =>
    let newLength := newArenaLength s bytesRequired
    let s1 : FSState :=
      ⟨s.currentlyAllocated + newLength,
       s.currentlyAllocated + newLength,
       s.arenas ++ [⟨mmapAddr, s.currentlyAllocated, newLength, 0⟩]⟩
    match verifyLength s1 with
    | .error e => .error e
    | .ok () => .ok s1

/-- Itl::expandLastArena: verifyLength, compute the grown length exactly
as the source does — `back.length + max((bytesRequired + page_size - 1)
/ page_size, 10000 * page_size)` (note the source compares a page count
against a byte count) — ftruncate to the grown file size, then mremap
in place.  `remapInPlace` is the oracle for whether mremap returns the
same address; on failure the source ftruncates back to
`currentlyAllocated` and reports failure with the arena vector
untouched. -/
def expandLastArena (s : FSState) (bytesRequired : Nat)
    (remapInPlace : Bool) : Except String (FSState × Bool) :=
  match verifyLength s with
  | .error e => .error e
  | .ok () =>
    match lastElem? s.arenas with
    | none => .error "no arena"
    | some back =>
      let newLength := back.length +
        max ((bytesRequired + page_size - 1) / page_size)
            (10000 * page_size)
      if remapInPlace then
        let s2 : FSState :=
          ⟨s.currentlyAllocated + newLength - back.length,
           s.currentlyAllocated + newLength - back.length,
           s.arenas.dropLast ++
             [⟨back.addr, back.startOffset, newLength, back.currentOffset⟩]⟩
        match verifyLength s2 with
        | .error e => .error e
        | .ok () => .ok (s2, true)
      else
        let s2 : FSState :=
          ⟨s.currentlyAllocated, s.currentlyAllocated, s.arenas⟩
        match verifyLength s2 with
        | .error e => .error e
        | .ok () => .ok (s2, false)

/-- The retry loop of Itl::allocateWritableImpl, with explicit fuel (the
source loops until the bump allocation succeeds).  On success the
source asserts the pointer is a multiple of the requested alignment. -/
def allocLoop : Nat → FSState → Nat → Nat → Bool → Nat →
    Except String (Nat × FSState)
  | 0, _, _, _, _, _ => .error "out of fuel"
  | fuel+1, s, bytes, alignment, remapInPlace, mmapAddr =>
    match lastElem? s.arenas with
    | none => .error "no arena"
    | some back =>
      match back.allocate bytes alignment with
      | some (p, back') =>
        if p % alignment = 0
        then .ok (p, ⟨s.fileLength, s.currentlyAllocated,
                      s.arenas.dropLast ++ [back']⟩)
        else .error "ExcAssertEqual allocated alignment"
      | none =>
        match expandLastArena s (bytes + alignment) remapInPlace with
        | .error e => .error e
        | .ok (s1, expanded) =>
          if expanded
          then allocLoop fuel s1 bytes alignment remapInPlace mmapAddr
          else
            match createNewArena s1 (bytes + alignment) mmapAddr with
            | .error e => .error e
            | .ok s2 => allocLoop fuel s2 bytes alignment remapInPlace mmapAddr

/-- Itl::allocateWritableImpl: zero-byte requests return the null
handle immediately; otherwise ensure an arena exists and run the bump
allocation loop.  The returned `Option Nat` is the handle/pointer
(`none` is the null `shared_ptr`). -/
def allocateWritableImpl (s : FSState) (bytes alignment : Nat)
    (remapInPlace : Bool) (mmapAddr : Nat) (fuel : Nat) :
    Except String (Option Nat × FSState) :=
  if bytes = 0 then .ok (none, s)
  else
    match (if s.arenas.isEmpty
           then createNewArena s (bytes + alignment) mmapAddr
           else .ok s) with
    | .error e => .error e
    | .ok s1 =>
      match allocLoop fuel s1 bytes alignment remapInPlace mmapAddr with
      | .error e => .error e
      | .ok (p, s2) => .ok (some p, s2)

/-- FileSerializer::allocateWritable: wraps the handle from
allocateWritableImpl in a MutableMemoryRegion whose data pointer is the
handle's pointer (0 models the null pointer) and whose length is the
requested byte count. -/
def FileSerializer.allocateWritable (s : FSState) (bytes alignment : Nat)
    (remapInPlace : Bool) (mmapAddr : Nat) (fuel : Nat) :
    Except String (MutableMemoryRegion × FSState) :=
  match allocateWritableImpl s bytes alignment remapInPlace mmapAddr fuel with
  | .error e => .error e
  | .ok (h, s') => .ok (⟨h, h.getD 0, bytes⟩, s')

/-- FileSerializer::freeze: identical to the memory one — the frozen
region shares the mutable region's handle, pointer, length. -/
def FileSerializer.freeze (r : MutableMemoryRegion) : FrozenMemoryRegion :=
  ⟨r.handle, r.dataPtr, r.length⟩

/-- Itl::commit: if there are arenas, ftruncate the file to
`arenas.back().startOffset + arenas.back().currentOffset`. -/
def FSState.commit (s : FSState) : Except String FSState :=
  match lastElem? s.arenas with
  | none => .ok s
  | some back =>
    .ok { s with fileLength := back.startOffset + back.currentOffset }

/-! ## StructuredSerializer::newObject -/

/-- A container entry as emitted by ZipStructuredSerializer's
EntrySerializer destructor: full path and payload bytes. -/
structure EmittedEntry where
  name : List String
  bytes : List Nat
deriving DecidableEq, Repr

/-- StructuredSerializer::newObject(name, val, desc): prints the value
through the injected encoder (`printed` stands for those bytes), then
calls `newEntry("md")` — the `name` argument is not used by the source —
allocates, copies and freezes; the EntrySerializer destructor emits the
frozen bytes at the serializer path plus its entry name. -/
def StructuredSerializer.newObject (path : List String) (name : String)
    (printed : List Nat) : EmittedEntry :=
  let entryName := "md"
  { name := path ++ [entryName], bytes := printed }

/-! ## ZipStructuredReconstituter tree -/

/-- ZipStructuredReconstituter::Itl::Entry: ordered children map plus a
region (default-constructed — null data, length 0 — for nodes never
assigned a payload). -/
inductive ZEntry : Type where
  | node : List (String × ZEntry) → FrozenMemoryRegion → ZEntry

/-- The children map of an entry. -/
def ZEntry.children : ZEntry → List (String × ZEntry)
  | .node c _ => c

/-- The payload region of an entry. -/
def ZEntry.region : ZEntry → FrozenMemoryRegion
  | .node _ r => r

/-- `children.find(name)` on the ordered map. -/
def ZEntry.findChild (e : ZEntry) (n : String) : Option ZEntry :=
  (e.children.find? (fun p => p.1 = n)).map Prod.snd

/-- ZipStructuredReconstituter::getRegion: look the name up among the
children; throw if absent, otherwise return the stored region
unconditionally. -/
def getRegion (e : ZEntry) (n : String) : Except String FrozenMemoryRegion :=
  match e.findChild n with
  | none => .error "Child structure not found"
  | some c => .ok c.region

/-- ZipStructuredReconstituter::getStructure: look the name up among
the children; throw if absent, otherwise a reconstituter rooted at the
child. -/
def getStructure (e : ZEntry) (n : String) : Except String ZEntry :=
  match e.findChild n with
  | none => .error "Child structure not found"
  | some c => .ok c

/-- The for-loop of StructuredReconstituter::getStructureRecursive:
`result` is replaced by `current->getStructure(el)` at each element and
`current` follows it. -/
def getStructureRecursiveLoop (result : Option ZEntry) (current : ZEntry) :
    List String → Except String (Option ZEntry)
  | [] => .ok result
  | el :: rest =>
    match getStructure current el with
    | .error e => .error e
    | .ok r => getStructureRecursiveLoop (some r) r rest

/-- StructuredReconstituter::getStructureRecursive: `result` starts as
the null pointer, `current` as `this`, then the loop above runs over
the path. -/
def getStructureRecursive (root : ZEntry) (name : List String) :
    Except String (Option ZEntry) :=
  getStructureRecursiveLoop none root name

/-! ## ReconstituteStreamHandler -/

/-- The three seek directions of std::ios_base. -/
inductive SeekDir : Type where
  | cur
  | beg
  | fromEnd
deriving DecidableEq, Repr

/-- The get-area state of ReconstituteStreamHandler: `gptr` is the read
position relative to `start` (= eback), `regionLength` is `end - start`. -/
structure ReconstituteStreamHandler where
  gptr : Int
  regionLength : Int
deriving DecidableEq, Repr

/-- ReconstituteStreamHandler::seekoff: cur does `gbump(off)`, end does
`setg(start, end + off, end)`, beg does `setg(start, start + off, end)`;
the return value is `gptr() - eback()`.  No bounds check anywhere. -/
def seekoff (h : ReconstituteStreamHandler) (off : Int) (dir : SeekDir) :
    ReconstituteStreamHandler × Int :=
  match dir with
  | .cur => (⟨h.gptr + off, h.regionLength⟩, h.gptr + off)
  | .fromEnd => (⟨h.regionLength + off, h.regionLength⟩, h.regionLength + off)
  | .beg => (⟨off, h.regionLength⟩, off)

/-! ## Concrete states used by counterexamples and witnesses -/

/-- A FileSerializer state with one full arena of one page, consistent
file length (addresses page-aligned, as mmap returns). -/
def c2state : FSState := ⟨4096, 4096, [⟨8192, 0, 4096, 100⟩]⟩

/-- Driver for the C4 counterexample: allocate 3 bytes (alignment 1),
then 1 MiB·4 bytes (alignment 1) — the second does not fit the first
arena and, with the in-place remap failing, lands in a fresh arena —
then commit; report the final file length, the sum of the arenas' bump
offsets, and the sum of requested bytes. -/
def c4run : Except String (Nat × Nat × Nat) :=
  match allocateWritableImpl ⟨0, 0, []⟩ 3 1 false 4096 3 with
  | .error e => .error e
  | .ok (_, s1) =>
    match allocateWritableImpl s1 4194304 1 false 8192 3 with
    | .error e => .error e
    | .ok (_, s2) =>
      match FSState.commit s2 with
      | .error e => .error e
      | .ok s3 =>
        .ok (s3.fileLength, (s3.arenas.map Arena.currentOffset).sum,
             3 + 4194304)

/-- Driver for the C3 counterexample: allocate 3 bytes then 8 bytes
from a fresh FileSerializer, both with alignment 1 (a power of two),
and report the second pointer modulo max(alignment, pointer size). -/
def c3run : Except String Nat :=
  match FileSerializer.allocateWritable ⟨0, 0, []⟩ 3 1 false 4096 3 with
  | .error e => .error e
  | .ok (_, s1) =>
    match FileSerializer.allocateWritable s1 8 1 false 4096 3 with
    | .error e => .error e
    | .ok (reg, _) => .ok (reg.dataPtr % max 1 ptrSize)

/-- A FileSerializer state whose single arena (page-aligned base) is
completely full, so any further allocation must grow it or open a new
arena. -/
def c1state : FSState := ⟨4096, 4096, [⟨4096, 0, 4096, 4096⟩]⟩

/-- A reconstituter tree whose child "b" is a sub-structure only: it
has a child "c" but a default-constructed (null) region, exactly what
the Zip directory insertion produces for intermediate path nodes. -/
def c7tree : ZEntry :=
  .node [("b", .node [("c", .node [] ⟨some 1, 100, 5⟩)] ⟨none, 0, 0⟩)]
        ⟨none, 0, 0⟩

/-! ## Helper lemmas about the FileSerializer model -/

/-- `arenas.back()` of a vector just extended by push_back. -/
theorem lastElem?_append_singleton {α : Type} (l : List α) (a : α) :
    lastElem? (l ++ [a]) = some a := by
  induction l with
  | nil => rfl
  | cons x xs ih =>
    cases xs with
    | nil => rfl
    | cons y ys => exact ih

/-- The alignment padding makes the padded offset a multiple of the
alignment. -/
theorem cur_plus_extra_mod (cur alignment : Nat) (ha : 0 < alignment) :
    (cur + (if cur % alignment > 0
            then alignment - cur % alignment else 0)) % alignment = 0 := by
  rcases Nat.eq_zero_or_pos (cur % alignment) with h | h
  · simp [h]
  · rw [if_pos h]
    have h2 : cur % alignment < alignment := Nat.mod_lt _ ha
    have h4 := Nat.div_add_mod cur alignment
    have h5 : cur + (alignment - cur % alignment)
        = alignment * (cur / alignment) + alignment := by omega
    rw [h5, ← Nat.mul_succ, Nat.mul_mod_right]

/-- A successful arena bump allocation returns a pointer that is a
multiple of the requested alignment, provided the arena base address is
(mmap bases are page-aligned, and the claims request power-of-two
alignments dividing the page size). -/
theorem allocate_aligned (ar : Arena) (bytes alignment p : Nat) (ar' : Arena)
    (ha : 0 < alignment) (haddr : ar.addr % alignment = 0)
    (h : ar.allocate bytes alignment = some (p, ar')) :
    p % alignment = 0 := by
  have hextra : (ar.currentOffset + (if ar.currentOffset % alignment > 0
      then alignment - ar.currentOffset % alignment else 0)) % alignment = 0 :=
    cur_plus_extra_mod ar.currentOffset alignment ha
  simp only [Arena.allocate] at h
  revert h hextra
  generalize (if ar.currentOffset % alignment > 0
      then alignment - ar.currentOffset % alignment else 0) = extra
  intro h hextra
  split at h
  · exact absurd h (by simp)
  · simp only [Option.some.injEq, Prod.mk.injEq] at h
    obtain ⟨h1, -⟩ := h
    rw [← h1]
    have h3 : ar.addr + extra + ar.currentOffset
        = ar.addr + (ar.currentOffset + extra) := by omega
    rw [h3, Nat.add_mod, haddr, hextra]
    simp

/-- A fresh arena (bump offset 0) serves any request that fits its
length, at its base address. -/
theorem allocate_fresh (ad so L bytes alignment : Nat) (hfit : bytes ≤ L) :
    (⟨ad, so, L, 0⟩ : Arena).allocate bytes alignment
      = some (ad, ⟨ad, so, L, bytes⟩) := by
  simp only [Arena.allocate]
  simp [Nat.not_lt.mpr hfit]

/-- The request rounded up to whole pages is at least the request. -/
theorem le_ceil_mul (n p : Nat) (hp : 0 < p) : n ≤ (n + p - 1) / p * p := by
  rcases Nat.eq_zero_or_pos n with rfl | hn
  · simp
  · have h1 : n + p - 1 = (n - 1) + p := by omega
    rw [h1, Nat.add_div_right _ hp, Nat.succ_mul]
    have h4 := Nat.div_add_mod' (n - 1) p
    have h2 : (n - 1) % p < p := Nat.mod_lt _ hp
    omega

/-- A fresh arena is at least as long as the request it was created
for. -/
theorem le_newArenaLength (s : FSState) (b : Nat) : b ≤ newArenaLength s b := by
  unfold newArenaLength
  calc b ≤ (b + page_size - 1) / page_size * page_size :=
        le_ceil_mul b page_size (by decide)
    _ ≤ _ :=
        Nat.mul_le_mul_right page_size
          (le_trans (Nat.le_max_left _ _) (Nat.le_max_left _ _))

/-- createNewArena on a length-consistent state: both verifyLength
checks pass and the new state has the fresh arena appended, with file
length and currentlyAllocated grown by the new arena's length. -/
theorem createNewArena_ok (s : FSState) (b addr : Nat)
    (hv : s.fileLength = s.currentlyAllocated) :
    createNewArena s b addr = .ok
      ⟨s.currentlyAllocated + newArenaLength s b,
       s.currentlyAllocated + newArenaLength s b,
       s.arenas ++ [⟨addr, s.currentlyAllocated, newArenaLength s b, 0⟩]⟩ := by
  simp [createNewArena, verifyLength, hv]

/-- expandLastArena when the in-place mremap fails: the file is
truncated back and the state is exactly the input state. -/
theorem expandLastArena_fail (s : FSState) (b : Nat) (back : Arena)
    (hlast : lastElem? s.arenas = some back)
    (hv : s.fileLength = s.currentlyAllocated) :
    expandLastArena s b false = .ok (s, false) := by
  obtain ⟨fl, ca, ar⟩ := s
  simp only at hv hlast
  subst hv
  simp [expandLastArena, verifyLength, hlast]

/-- Inversion of a non-throwing failed expandLastArena: the result
state is the input state, the flag is false, and the input state was
length-consistent with a last arena. -/
theorem expandLastArena_fail_inv (s s' : FSState) (b : Nat) (r : Bool)
    (h : expandLastArena s b false = .ok (s', r)) :
    s' = s ∧ r = false ∧ s.fileLength = s.currentlyAllocated ∧
    ∃ back, lastElem? s.arenas = some back := by
  by_cases hv : s.fileLength = s.currentlyAllocated
  · cases hlast : lastElem? s.arenas with
    | none => simp [expandLastArena, verifyLength, hv, hlast] at h
    | some back =>
      rw [expandLastArena_fail s b back hlast hv] at h
      simp only [Except.ok.injEq, Prod.mk.injEq] at h
      exact ⟨h.1.symm, h.2.symm, hv, back, rfl⟩
  · simp [expandLastArena, verifyLength, hv] at h

/-- One loop iteration where the last arena serves the request and the
post-loop alignment assert passes. -/
theorem allocLoop_some (fuel : Nat) (s : FSState) (bytes alignment : Nat)
    (remapInPlace : Bool) (mmapAddr : Nat) (back : Arena) (p : Nat)
    (back' : Arena)
    (hlast : lastElem? s.arenas = some back)
    (hac : back.allocate bytes alignment = some (p, back'))
    (hpal : p % alignment = 0) :
    allocLoop (fuel + 1) s bytes alignment remapInPlace mmapAddr
      = .ok (p, ⟨s.fileLength, s.currentlyAllocated,
                 s.arenas.dropLast ++ [back']⟩) := by
  simp only [allocLoop, hlast, hac, hpal, if_pos]

/-- One loop iteration where the last arena is full, the in-place grow
fails (and rolls back), and a fresh arena is created. -/
theorem allocLoop_none (fuel : Nat) (s : FSState) (bytes alignment mmapAddr : Nat)
    (back : Arena)
    (hlast : lastElem? s.arenas = some back)
    (hv : s.fileLength = s.currentlyAllocated)
    (hac : back.allocate bytes alignment = none) :
    allocLoop (fuel + 1) s bytes alignment false mmapAddr
      = allocLoop fuel
          ⟨s.currentlyAllocated + newArenaLength s (bytes + alignment),
           s.currentlyAllocated + newArenaLength s (bytes + alignment),
           s.arenas ++ [⟨mmapAddr, s.currentlyAllocated,
                         newArenaLength s (bytes + alignment), 0⟩]⟩
          bytes alignment false mmapAddr := by
  simp only [allocLoop, hlast, hac,
             expandLastArena_fail s (bytes + alignment) back hlast hv,
             createNewArena_ok s (bytes + alignment) mmapAddr hv,
             Bool.false_eq_true, if_false]

/-- After any length-consistent state with an arena, a positive-size
allocation with remap failing succeeds within three loop iterations:
either the last arena serves it, or a fresh arena does. -/
theorem alloc_succeeds (s : FSState) (bytes alignment mmapAddr : Nat)
    (back : Arena)
    (hlast : lastElem? s.arenas = some back)
    (hv : s.fileLength = s.currentlyAllocated)
    (hb : 0 < bytes) (ha : 0 < alignment)
    (haddr : back.addr % alignment = 0)
    (hmaddr : mmapAddr % alignment = 0) :
    ∃ p t, allocateWritableImpl s bytes alignment false mmapAddr 3
      = .ok (some p, t) := by
  have hne : s.arenas.isEmpty = false := by
    cases hl : s.arenas with
    | nil => rw [hl] at hlast; exact absurd hlast (by simp [lastElem?])
    | cons x xs => rfl
  have h3 : (3 : Nat) = 2 + 1 := rfl
  cases hac : back.allocate bytes alignment with
  | some pr =>
    obtain ⟨p, back'⟩ := pr
    have hpal : p % alignment = 0 :=
      allocate_aligned back bytes alignment p back' ha haddr hac
    have hrun : allocateWritableImpl s bytes alignment false mmapAddr 3
        = .ok (some p, (⟨s.fileLength, s.currentlyAllocated,
                        s.arenas.dropLast ++ [back']⟩ : FSState)) := by
      unfold allocateWritableImpl
      rw [if_neg hb.ne', h3]
      simp only [hne, Bool.false_eq_true, if_false,
        allocLoop_some 2 s bytes alignment false mmapAddr back p back'
          hlast hac hpal]
    exact ⟨p, (⟨s.fileLength, s.currentlyAllocated,
               s.arenas.dropLast ++ [back']⟩ : FSState), hrun⟩
  | none =>
    have hfit : bytes ≤ newArenaLength s (bytes + alignment) :=
      le_trans (Nat.le_add_right bytes alignment)
        (le_newArenaLength s (bytes + alignment))
    have hlast2 :
        lastElem? (s.arenas ++ [⟨mmapAddr, s.currentlyAllocated,
                                 newArenaLength s (bytes + alignment), 0⟩])
          = some ⟨mmapAddr, s.currentlyAllocated,
                  newArenaLength s (bytes + alignment), 0⟩ :=
      lastElem?_append_singleton _ _
    have hac2 := allocate_fresh mmapAddr s.currentlyAllocated
      (newArenaLength s (bytes + alignment)) bytes alignment hfit
    have hrun : allocateWritableImpl s bytes alignment false mmapAddr 3
        = .ok (some mmapAddr,
            (⟨s.currentlyAllocated + newArenaLength s (bytes + alignment),
              s.currentlyAllocated + newArenaLength s (bytes + alignment),
              (s.arenas ++ [(⟨mmapAddr, s.currentlyAllocated,
                             newArenaLength s (bytes + alignment), 0⟩ : Arena)]).dropLast
                ++ [(⟨mmapAddr, s.currentlyAllocated,
                      newArenaLength s (bytes + alignment), bytes⟩ : Arena)]⟩ : FSState)) := by
      unfold allocateWritableImpl
      rw [if_neg hb.ne', h3]
      simp only [hne, Bool.false_eq_true, if_false,
        allocLoop_none 2 s bytes alignment mmapAddr back hlast hv hac]
      rw [show (2 : Nat) = 1 + 1 from rfl,
          allocLoop_some 1 _ bytes alignment false mmapAddr _ mmapAddr _
            hlast2 hac2 hmaddr]
    exact ⟨mmapAddr,
           (⟨s.currentlyAllocated + newArenaLength s (bytes + alignment),
             s.currentlyAllocated + newArenaLength s (bytes + alignment),
             (s.arenas ++ [(⟨mmapAddr, s.currentlyAllocated,
                            newArenaLength s (bytes + alignment), 0⟩ : Arena)]).dropLast
               ++ [(⟨mmapAddr, s.currentlyAllocated,
                     newArenaLength s (bytes + alignment), bytes⟩ : Arena)]⟩ : FSState),
           hrun⟩

/-! ## Claim theorems -/

/-- C2 counterexample evidence (code bug): with the last arena one page
long, a request of 20000 pages makes expandLastArena grow the file and
arena by only 10000·page_size bytes — the source computes
`max((bytes + page_size - 1) / page_size, 10000 * page_size)`, a page
count compared against a byte count — whereas the claimed growth is
max(pages(bytes) in bytes, 10000 pages) = 20000 pages. -/
theorem c2_expand_unit_mismatch :
    expandLastArena c2state (20000 * page_size) true
      = .ok (⟨40964096, 40964096, [⟨8192, 0, 40964096, 100⟩]⟩, true) ∧
    40964096 - 4096 = 10000 * page_size ∧
    (10000 * page_size : Nat)
      ≠ max ((20000 * page_size + page_size - 1) / page_size * page_size)
            (10000 * page_size) :=
  ⟨rfl, rfl, by decide⟩

/-- C4 (amended): commit truncates the file to exactly
`arenas.back().startOffset + arenas.back().currentOffset` — the
high-water mark — not to the sum of bytes actually allocated. -/
theorem c4_commit_high_water (s : FSState) (back : Arena)
    (hlast : lastElem? s.arenas = some back) :
    FSState.commit s
      = .ok { s with fileLength := back.startOffset + back.currentOffset } := by
  unfold FSState.commit
  rw [hlast]

/-- Witness for C4: a one-arena serializer with 20 bytes consumed out
of a 50-byte arena commits to file length 20. -/
theorem c4_commit_high_water_witness :
    FSState.commit ⟨100, 100, [⟨0, 0, 50, 20⟩]⟩
      = .ok ⟨20, 100, [⟨0, 0, 50, 20⟩]⟩ :=
  c4_commit_high_water ⟨100, 100, [⟨0, 0, 50, 20⟩]⟩ ⟨0, 0, 50, 20⟩ rfl

/-- C4 counterexample: after allocating 3 bytes and 4194304 bytes (the
second forces a fresh arena, wasting the first arena's tail) the
committed file length is 8388608, while both the sum of the arenas'
bump offsets and the sum of requested bytes are 4194307. -/
theorem c4_counterexample :
    c4run = .ok (8388608, 4194307, 4194307) ∧ (8388608 : Nat) ≠ 4194307 :=
  ⟨rfl, by decide⟩

/-- C5 (amended): a zero-byte FileSerializer allocation returns the
null handle, null data and length 0 and freezes to a length-0 frozen
region; a zero-byte MemorySerializer allocation also has length 0 and
freezes to length 0, but its handle is the owning wrapper of whatever
posix_memalign returned — never the null handle. -/
theorem c5_zero_length_allocation :
    (∀ (s : FSState) (alignment mmapAddr fuel : Nat) (remapInPlace : Bool),
      FileSerializer.allocateWritable s 0 alignment remapInPlace mmapAddr fuel
        = .ok (⟨none, 0, 0⟩, s)
      ∧ (FileSerializer.freeze ⟨none, 0, 0⟩).length = 0) ∧
    (∀ (alignment : Nat) (memalign : Nat → Nat → Nat),
      (MemorySerializer.allocateWritable 0 alignment memalign).length = 0 ∧
      (MemorySerializer.allocateWritable 0 alignment memalign).handle
        = some (memalign (if alignment < ptrSize then ptrSize else alignment) 0) ∧
      (MemorySerializer.freeze
        (MemorySerializer.allocateWritable 0 alignment memalign)).length = 0) :=
  ⟨fun _ _ _ _ _ => ⟨rfl, rfl⟩, fun _ _ => ⟨rfl, rfl, rfl⟩⟩

/-- C5 counterexample: with a posix_memalign that returns address 4096,
the MemorySerializer zero-byte allocation's handle is not null — the
source wraps the allocator result unconditionally. -/
theorem c5_counterexample :
    (MemorySerializer.allocateWritable 0 8 (fun _ _ => 4096)).handle ≠ none :=
  by decide

/-- C6 evidence (code bug): newObject emits the entry at
path ++ ["md"], ignoring its name argument "foo"; the payload bytes are
the encoder's bytes. -/
theorem c6_newObject_md :
    (StructuredSerializer.newObject ["P"] "foo" [104, 105]).name = ["P", "md"] ∧
    (StructuredSerializer.newObject ["P"] "foo" [104, 105]).bytes = [104, 105] ∧
    (["P", "md"] : List String) ≠ ["P", "foo"] :=
  ⟨rfl, rfl, by decide⟩

/-- C7 (amended): getRegion fails exactly when the name is absent among
the children; whenever the name is present — even as a sub-structure
with no payload — it returns the stored region. -/
theorem c7_notfound_iff_absent (e : ZEntry) (n : String) :
    ((∃ err, getRegion e n = .error err) ↔ e.findChild n = none) ∧
    (∀ c, e.findChild n = some c → getRegion e n = .ok c.region) := by
  refine ⟨⟨?_, ?_⟩, ?_⟩
  · rintro ⟨err, h⟩
    unfold getRegion at h
    cases hf : e.findChild n with
    | none => rfl
    | some c => rw [hf] at h; cases h
  · intro h
    exact ⟨_, by unfold getRegion; rw [h]⟩
  · intro c h
    unfold getRegion
    rw [h]

/-- Witness for C7: on the concrete tree, "b" is present, so getRegion
returns its stored (null) region. -/
theorem c7_notfound_iff_absent_witness :
    getRegion c7tree "b"
      = .ok (ZEntry.node [("c", ZEntry.node [] ⟨some 1, 100, 5⟩)]
               ⟨none, 0, 0⟩).region :=
  (c7_notfound_iff_absent c7tree "b").2 _ rfl

/-- C7 counterexample: "b" exists only as a sub-structure (one child,
null payload), yet getRegion succeeds with the default null region
instead of failing with NotFound. -/
theorem c7_counterexample :
    getRegion c7tree "b" = .ok ⟨none, 0, 0⟩ ∧
    (c7tree.findChild "b").map (fun c => c.children.length) = some 1 ∧
    (c7tree.findChild "b").map (fun c => c.region.dataPtr) = some 0 :=
  ⟨rfl, rfl, rfl⟩

/-- C8 (amended): seekoff applies no clamping: the resulting read
position is exactly the computed target — off for beg, gptr + off for
cur, length + off for end — and no error is raised for the three
directions, even when the target lies outside the region. -/
theorem c8_seekoff_unclamped (h : ReconstituteStreamHandler) (off : Int) :
    (seekoff h off SeekDir.beg).2 = off ∧
    (seekoff h off SeekDir.cur).2 = h.gptr + off ∧
    (seekoff h off SeekDir.fromEnd).2 = h.regionLength + off :=
  ⟨rfl, rfl, rfl⟩

/-- C8 counterexample: on a region of length 5, seek-beg to 10 yields
position 10, not the claimed clamp to the bound 5. -/
theorem c8_counterexample :
    (seekoff ⟨0, 5⟩ 10 SeekDir.beg).2 = 10 ∧
    ¬ ((seekoff ⟨0, 5⟩ 10 SeekDir.beg).2 ≤ 5) :=
  ⟨rfl, by decide⟩

/-- C10: getStructureRecursive on the empty path returns the null
pointer: result is never assigned, no lookup runs, no error is
raised. -/
theorem c10_empty_path_null (root : ZEntry) :
    getStructureRecursive root [] = .ok none := rfl

/-- C1: a non-throwing failed in-place arena grow leaves the entire
FileSerializer state — file length, arena list, every arena's start
offset, length and bump offset — exactly as it was before the attempt,
and a subsequent positive-size allocation still succeeds (through a
fresh arena when the last one cannot serve it), given that mmap returns
addresses aligned to the requested alignment. -/
theorem c1_failed_grow_rollback (s s' : FSState) (b : Nat) (r : Bool)
    (bytes alignment mmapAddr : Nat)
    (h : expandLastArena s b false = .ok (s', r))
    (hb : 0 < bytes) (ha : 0 < alignment)
    (haddr : ∀ back, lastElem? s.arenas = some back →
      back.addr % alignment = 0)
    (hmaddr : mmapAddr % alignment = 0) :
    s' = s ∧ r = false ∧
    ∃ p t, allocateWritableImpl s' bytes alignment false mmapAddr 3
      = .ok (some p, t) := by
  obtain ⟨hs, hr, hv, back, hlast⟩ := expandLastArena_fail_inv s s' b r h
  refine ⟨hs, hr, ?_⟩
  rw [hs]
  exact alloc_succeeds s bytes alignment mmapAddr back hlast hv
    hb ha (haddr back hlast) hmaddr

/-- Witness for C1: on a full one-page arena the failed grow returns
the state untouched and an 8-byte aligned allocation then succeeds. -/
theorem c1_failed_grow_rollback_witness :
    c1state = c1state ∧ (false : Bool) = false ∧
    ∃ p t, allocateWritableImpl c1state 8 8 false 8192 3
      = .ok (some p, t) :=
  c1_failed_grow_rollback c1state c1state 10 false 8 8 8192 rfl
    (by decide) (by decide)
    (by intro back hb
        injection hb with h
        rw [← h]
        decide)
    (by decide)

/-- C3 (amended): a MemorySerializer allocation is aligned to
max(alignment, pointer size) — posix_memalign is called with the
rounded-up alignment — and has exactly the requested length; a
FileSerializer region also has exactly the requested length, but its
pointer is only a multiple of the requested alignment itself (given
aligned arena bases), not of max(alignment, pointer size). -/
theorem c3_alignment :
    (∀ (bytes alignment : Nat) (memalign : Nat → Nat → Nat),
      (∀ a b, memalign a b % a = 0) →
      (MemorySerializer.allocateWritable bytes alignment memalign).dataPtr
          % max alignment ptrSize = 0 ∧
      (MemorySerializer.allocateWritable bytes alignment memalign).length
          = bytes) ∧
    (∀ (ar : Arena) (bytes alignment p : Nat) (ar' : Arena),
      0 < alignment → ar.addr % alignment = 0 →
      ar.allocate bytes alignment = some (p, ar') → p % alignment = 0) ∧
    (∀ (s : FSState) (bytes alignment mmapAddr fuel : Nat)
        (remapInPlace : Bool) (reg : MutableMemoryRegion) (s' : FSState),
      FileSerializer.allocateWritable s bytes alignment remapInPlace mmapAddr
          fuel = .ok (reg, s') → reg.length = bytes) := by
  refine ⟨?_, ?_, ?_⟩
  · intro bytes alignment memalign hmem
    have hA : (if alignment < ptrSize then ptrSize else alignment)
        = max alignment ptrSize := by
      unfold ptrSize
      split <;> omega
    constructor
    · show memalign (if alignment < ptrSize then ptrSize else alignment) bytes
          % max alignment ptrSize = 0
      rw [← hA]
      exact hmem _ _
    · rfl
  · exact fun ar bytes alignment p ar' ha haddr h =>
      allocate_aligned ar bytes alignment p ar' ha haddr h
  · intro s bytes alignment mmapAddr fuel remapInPlace reg s' h
    unfold FileSerializer.allocateWritable at h
    split at h
    · exact absurd h (by simp)
    · simp only [Except.ok.injEq, Prod.mk.injEq] at h
      obtain ⟨h1, -⟩ := h
      rw [← h1]

/-- Witness for C3: concrete instances of all three conjuncts — a
10-byte alignment-4 heap allocation, a file arena bump allocation at
offset 3 with alignment 8, and a 3-byte FileSerializer allocation. -/
theorem c3_alignment_witness :
    ((MemorySerializer.allocateWritable 10 4 (fun _ _ => 0)).dataPtr
        % max 4 ptrSize = 0 ∧
     (MemorySerializer.allocateWritable 10 4 (fun _ _ => 0)).length = 10) ∧
    (4104 : Nat) % 8 = 0 ∧
    (⟨some 4096, 4096, 3⟩ : MutableMemoryRegion).length = 3 :=
  ⟨c3_alignment.1 10 4 (fun _ _ => 0) (fun a _ => Nat.zero_mod a),
   c3_alignment.2.1 ⟨4096, 0, 4096, 3⟩ 8 8 4104 ⟨4096, 0, 4096, 16⟩
     (by decide) (by decide) rfl,
   c3_alignment.2.2 ⟨0, 0, []⟩ 3 1 4096 3 false ⟨some 4096, 4096, 3⟩
     ⟨4194304, 4194304, [⟨4096, 0, 4194304, 3⟩]⟩ rfl⟩

/-- C3 counterexample: two FileSerializer allocations with alignment 1
(a power of two) and sizes 3 then 8: the second region's pointer is
3 mod max(1, pointer size) — the file-backed serializer does not round
the alignment up to the pointer size. -/
theorem c3_counterexample : c3run = .ok 3 ∧ (3 : Nat) ≠ 0 :=
  ⟨rfl, by decide⟩

/-- C9: slice composition — range(a,b) then range(c,d) equals
range(a+c, a+d) as byte sequences, and both results carry the original
region's handle. -/
theorem c9_slice_composition (r : FrozenMemoryRegion) (mem : Nat → Nat)
    (a b c d : Nat) (hab : a ≤ b) (hbr : b ≤ r.length)
    (hcd : c ≤ d) (hdb : d ≤ b - a) :
    ∃ r1 r2 r3,
      r.range a b = .ok r1 ∧
      r1.range c d = .ok r2 ∧
      r.range (a + c) (a + d) = .ok r3 ∧
      r2.bytes mem = r3.bytes mem ∧
      r2.handle = r.handle ∧ r3.handle = r.handle := by
  refine ⟨⟨r.handle, r.dataPtr + a, b - a⟩,
          ⟨r.handle, r.dataPtr + a + c, d - c⟩,
          ⟨r.handle, r.dataPtr + a + c, d - c⟩, ?_, ?_, ?_, rfl, rfl, rfl⟩
  · simp [FrozenMemoryRegion.range, hab, hbr]
  · simp [FrozenMemoryRegion.range, hcd, hdb]
  · have h1 : a + c ≤ a + d := by omega
    have h2 : a + d ≤ r.length := by omega
    simp only [FrozenMemoryRegion.range, if_pos h1, if_pos h2,
               Except.ok.injEq, FrozenMemoryRegion.mk.injEq]
    refine ⟨trivial, by omega, by omega⟩

/-- Witness for C9: a concrete 10-byte region sliced to (2,8) then
(1,3), against the direct slice (3,5). -/
theorem c9_slice_composition_witness :
    ∃ r1 r2 r3,
      (⟨some 7, 100, 10⟩ : FrozenMemoryRegion).range 2 8 = .ok r1 ∧
      r1.range 1 3 = .ok r2 ∧
      (⟨some 7, 100, 10⟩ : FrozenMemoryRegion).range (2 + 1) (2 + 3)
        = .ok r3 ∧
      r2.bytes (fun i => i) = r3.bytes (fun i => i) ∧
      r2.handle = (⟨some 7, 100, 10⟩ : FrozenMemoryRegion).handle ∧
      r3.handle = (⟨some 7, 100, 10⟩ : FrozenMemoryRegion).handle :=
  c9_slice_composition ⟨some 7, 100, 10⟩ (fun i => i) 2 8 1 3
    (by decide) (by decide) (by decide) (by decide)

end MldbSerializer
